import Mathlib

/-!
Shallow embedding of the face-rec-service Flask application (app.py).

The service exposes two HTTP endpoints, POST /generate-embedding and
POST /compare-faces, built on top of external library calls (PIL image
decoding, base64 decoding, json parsing, and the DeepFace model calls).
Those external calls are modelled as fields of an environment record
`Env`: each is a function that either returns a value or raises a Python
exception (`PyExn`).  The handler bodies themselves are translated
line by line from app.py; Python exception propagation becomes the
`Except` monad, and the try and except blocks of the handlers become a
final match on the propagated exception.  For the control flow of the
handlers the only attribute of an exception that matters is whether it
is a ValueError (compare_faces catches ValueError separately), so
`PyExn` records that flag together with the str(e) message and the
traceback text printed by traceback.print_exc().

A Flask `jsonify(...)` body is modelled by the `Response` structure:
each keyword that can appear in a response of app.py (error, embedding,
is_match) is an `Option` field, `none` meaning the key is absent from
the JSON body.  Handlers return the response paired with the list of
lines the handler printed to the server side log.
-/

namespace IntelliFace

/-- A Python exception as the handlers in app.py observe it:
whether it is an instance of ValueError, its str(e) message, and the
traceback text that traceback.print_exc() would write to the log. -/
structure PyExn where
  isValueError : Bool
  msg : String
  trace : String
deriving DecidableEq

/-- Outcome of a Python expression: a value, or a raised exception. -/
abbrev Py (α : Type) := Except PyExn α

/-- Raw request payload bytes (contents of an uploaded file). -/
abbrev Bytes := List Nat

/-- A PIL image: dimensions and the PIL mode string
("RGB", "L", "P", "RGBA", ...). -/
structure PILImage where
  width : Nat
  height : Nat
  mode : String
deriving DecidableEq

/-- PIL Image.convert("RGB"): the pixel buffer is re-encoded with mode
"RGB" whatever the source mode was (app.py lines 44, 58, 93). -/
def convertRGB (im : PILImage) : PILImage :=
  ⟨im.width, im.height, "RGB"⟩

/-- A parsed JSON value, the result of json.loads (app.py line 96). -/
inductive Json where
  | null : Json
  | bool : Bool → Json
  | num : Int → Json
  | str : String → Json
  | arr : List Json → Json
  | obj : List (String × Json) → Json

/-- One element of the list DeepFace.represent returns: a dict holding
the embedding under the key "embedding" (app.py line 68). -/
structure FaceObj (Emb : Type) where
  embedding : Emb
deriving DecidableEq

/-- DeepFace configuration fixed at module load (app.py lines 23 to 25). -/
def MODEL_NAME : String := "SFace"

/-- Face detection method fixed at module load (app.py line 24). -/
def DETECTOR_BACKEND : String := "retinaface"

/-- Similarity measure fixed at module load (app.py line 25). -/
def DISTANCE_METRIC : String := "cosine"

/-- The external library calls the handlers make, with the process
configuration (MODEL_NAME, DETECTOR_BACKEND, DISTANCE_METRIC,
enforce_detection=True) already applied:
  imageOpen  models PIL.Image.open(BytesIO(bytes)),
  b64decode  models base64.b64decode,
  represent  models DeepFace.represent on the decoded numpy image,
  jsonLoads  models json.loads,
  verify     models DeepFace.verify followed by reading result["verified"].
Each call either returns a value or raises a `PyExn`. -/
structure Env (Emb : Type) where
  imageOpen : Bytes → Py PILImage
  b64decode : String → Py Bytes
  represent : PILImage → Py (List (FaceObj Emb))
  jsonLoads : String → Py Json
  verify : PILImage → Json → Py Bool

/-- An inbound multipart POST request as the handlers read it:
the bytes of the uploaded file field "face" when present, and the form
field "stored_embedding" when present. -/
structure Request where
  files_face : Option Bytes
  form_stored_embedding : Option String
deriving DecidableEq

/-- A jsonify response body plus HTTP status.  Each Option field is a
JSON key of the body, `none` meaning the key is absent. -/
structure Response (Emb : Type) where
  status : Nat
  error : Option String
  embedding : Option Emb
  is_match : Option Bool
deriving DecidableEq

/-- The IndexError raised by indexing an empty Python list
(app.py line 68 when DeepFace.represent returns an empty list, and
app.py line 42 when split produces a single element). -/
def indexError : PyExn :=
  ⟨false, "list index out of range", "IndexError: list index out of range"⟩

/-- Whether the character sequence pat is a leading block of l. -/
def beginsWith : List Char → List Char → Bool
  | [], _ => true
  | _ :: _, [] => false
  | p :: ps, c :: cs => p == c && beginsWith ps cs

/-- Whether the character sequence pat occurs anywhere inside l. -/
def containsSeq (pat : List Char) : List Char → Bool
  | [] => beginsWith pat []
  | c :: cs => beginsWith pat (c :: cs) || containsSeq pat cs

/-- Python substring containment, `pat in s`. -/
def py_contains (s pat : String) : Bool :=
  containsSeq pat.toList s.toList

/-- Python single-character str.split: cut the character list at every
occurrence of the separator, keeping empty pieces. -/
def splitChar (sep : Char) : List Char → List (List Char)
  | [] => [[]]
  | c :: cs =>
    match splitChar sep cs with
    | [] => [[]]
    | g :: gs => if c == sep then [] :: g :: gs else (c :: g) :: gs

/-- Python str.split(',') on a string (app.py line 42). -/
def py_split_comma (s : String) : List String :=
  (splitChar ',' s.toList).map fun l => String.mk l

/-- Joining pieces back with commas, the inverse of py_split_comma on
its output. -/
def joinComma : List String → String
  | [] => ""
  | [x] => x
  | x :: y :: xs => x ++ "," ++ joinComma (y :: xs)

/-- np.array(Image.open(BytesIO(img_bytes)).convert("RGB"))
(app.py lines 58 and 93): decode bytes with PIL, then normalize the
channel layout to RGB. -/
def decode_file_bytes {Emb : Type} (env : Env Emb) (b : Bytes) : Py PILImage :=
  match env.imageOpen b with
  | .error e => .error e
  | .ok pil => .ok (convertRGB pil)

/-- b64_to_numpy (app.py lines 40 to 45): if the string contains
"data:image" take element [1] of the split on commas (IndexError when
there is no comma), base64-decode, open with PIL and convert to RGB. -/
def b64_to_numpy {Emb : Type} (env : Env Emb) (b64_string : String) : Py PILImage :=
  match
    (if py_contains b64_string "data:image" then
      match py_split_comma b64_string with
      | _ :: x :: _ => Except.ok x
      | _ => Except.error indexError
    else Except.ok b64_string : Py String) with
  | .error e => .error e
  | .ok s =>
    match env.b64decode s with
    | .error e => .error e
    | .ok img_bytes => decode_file_bytes env img_bytes

/-- The try block of generate_embedding (app.py lines 55 to 69):
reject a request without a "face" file with a 400, otherwise decode the
image, call DeepFace.represent, and answer 200 with the embedding of
element [0] of the returned list (indexing raises on an empty list).
Exceptions propagate to the caller of this definition. -/
def generate_embedding_body {Emb : Type} (env : Env Emb) (req : Request) :
    Py (Response Emb) :=
  match req.files_face with
  | none => .ok ⟨400, some "No image file provided.", none, none⟩
  | some img_bytes =>
    match decode_file_bytes env img_bytes with
    | .error e => .error e
    | .ok np_img =>
      match env.represent np_img with
      | .error e => .error e
      | .ok [] => .error indexError
      | .ok (o :: _) => .ok ⟨200, none, some o.embedding, none⟩

/-- The full generate_embedding handler (app.py lines 53 to 73): the
try body, with `except Exception` mapping any raised exception to a 500
response carrying f"An error occurred: {e}" after printing the
traceback to the log.  Returns the response and the log lines. -/
def generate_embedding {Emb : Type} (env : Env Emb) (req : Request) :
    Response Emb × List String :=
  match generate_embedding_body env req with
  | .ok r => (r, [])
  | .error e =>
    (⟨500, some ("An error occurred: " ++ e.msg), none, none⟩, [e.trace])

/-- The try block of compare_faces (app.py lines 83 to 110): 400 when
the "face" file is missing, 400 when the stored_embedding form field is
missing or empty (Python falsiness of None and ""), then decode the
image, json.loads the stored embedding, call DeepFace.verify on the
pair, print the result and answer 200 with the verified flag.
Exceptions propagate to the caller of this definition. -/
def compare_faces_body {Emb : Type} (env : Env Emb) (req : Request) :
    Py (Response Emb × List String) :=
  match req.files_face with
  | none =>
    .ok (⟨400, some "No face image provided for comparison.", none, none⟩, [])
  | some img_bytes =>
    match req.form_stored_embedding with
    | none => .ok (⟨400, some "No stored embedding provided.", none, none⟩, [])
    | some stored_embedding_json =>
      if stored_embedding_json = "" then
        .ok (⟨400, some "No stored embedding provided.", none, none⟩, [])
      else
        match decode_file_bytes env img_bytes with
        | .error e => .error e
        | .ok np_img_to_verify =>
          match env.jsonLoads stored_embedding_json with
          | .error e => .error e
          | .ok stored_embedding =>
            match env.verify np_img_to_verify stored_embedding with
            | .error e => .error e
            | .ok is_match =>
              .ok (⟨200, none, none, some is_match⟩,
                   ["Comparison Result: " ++ toString is_match])

/-- The full compare_faces handler (app.py lines 81 to 116): the try
body, with `except ValueError` mapping a ValueError to a 400 response
and `except Exception` mapping any other exception to a 500 response
(after printing the traceback); both bodies carry the str(e) message
and is_match set to false. -/
def compare_faces {Emb : Type} (env : Env Emb) (req : Request) :
    Response Emb × List String :=
  match compare_faces_body env req with
  | .ok rl => rl
  | .error e =>
    if e.isValueError then
      (⟨400, some ("Could not process image: " ++ e.msg), none, some false⟩, [])
    else
      (⟨500, some ("An internal error occurred during comparison: " ++ e.msg),
        none, some false⟩, [e.trace])

/-- The module level model preload (app.py lines 30 to 35): print a
start line, run DeepFace.build_model inside try, print either a success
line or the caught error; the except clause swallows every exception,
so module initialization never fails here.  Returns the printed lines
inside `Py` to expose whether an exception escapes initialization. -/
def module_init (build_model : Py Unit) : Py (List String) :=
  match build_model with
  | .ok _ =>
    .ok ["Loading face recognition model...", "Model loaded successfully."]
  | .error e =>
    .ok ["Loading face recognition model...",
         "Error loading model on startup: " ++ e.msg]

/-- Whether the process reaches app.run (app.py line 122) and serves
traffic: module initialization must complete without an uncaught
exception. -/
def serves (build_model : Py Unit) : Bool :=
  match module_init build_model with
  | .ok _ => true
  | .error _ => false

/-- The stripping rule as the specification words it: remove everything
up to and including the first comma (and keep all later commas). -/
def strip_spec (s : String) : String :=
  match py_split_comma s with
  | [] => s
  | _ :: rest => joinComma rest

/-! ### Concrete fixtures used by witnesses and counterexamples -/

/-- The ValueError DeepFace raises when enforce_detection is set and no
face is found in the image. -/
def noFaceExn : PyExn :=
  ⟨true, "Face could not be detected in numpy array.",
   "Traceback: ValueError: Face could not be detected in numpy array."⟩

/-- The UnidentifiedImageError (a subclass of OSError, not of
ValueError) that PIL raises on bytes it cannot decode, for example a
zero-byte payload. -/
def badImageExn : PyExn :=
  ⟨false, "cannot identify image file", "Traceback: PIL.UnidentifiedImageError"⟩

/-- The JSONDecodeError (a subclass of ValueError) that json.loads
raises on input that is not valid JSON. -/
def badJsonExn : PyExn :=
  ⟨true, "Expecting value: line 1 column 1 (char 0)",
   "Traceback: json.decoder.JSONDecodeError"⟩

/-- The ValueError DeepFace.verify raises when a directly supplied
embedding does not have the dimensionality of the configured model. -/
def badDimsExn : PyExn :=
  ⟨true, "embeddings of SFace should have 128 dimensions, but it has 2 dimensions",
   "Traceback: ValueError: embeddings of SFace should have 128 dimensions"⟩

/-- Environment for the no-face scenario: images decode (a 1 by 1 black
pixel decodes to a 1 by 1 PIL image), but DeepFace finds no face, so
represent and verify raise the no-face ValueError. -/
def envNoFace : Env (List Int) :=
  ⟨fun _ => .ok ⟨1, 1, "L"⟩,
   fun _ => .ok [],
   fun _ => .error noFaceExn,
   fun _ => .error badJsonExn,
   fun _ _ => .error noFaceExn⟩

/-- A request uploading a 1 by 1 black pixel image and nothing else. -/
def reqPixel : Request := ⟨some [0, 0, 0], none⟩

/-- Environment for the malformed-image scenario: PIL cannot decode the
payload, so image opening raises UnidentifiedImageError. -/
def envBadImage : Env (List Int) :=
  ⟨fun _ => .error badImageExn,
   fun _ => .ok [],
   fun _ => .ok [],
   fun _ => .ok (Json.arr []),
   fun _ _ => .ok false⟩

/-- A request uploading a zero-byte "face" file together with a well
formed stored embedding. -/
def reqZeroByte : Request := ⟨some [], some "[1, 2]"⟩

/-- A request with a face file and a stored_embedding field that is not
valid JSON. -/
def reqBadJson : Request := ⟨some [1], some "not-json"⟩

/-- A request with a face file and a stored_embedding field holding a
JSON array. -/
def reqJsonArr : Request := ⟨some [2], some "[0.1]"⟩

/-- A compare request with no face file at all. -/
def reqNoFaceFile : Request := ⟨none, some "[1]"⟩

/-- Environment in which the stored embedding parses to the JSON string
"abc" and DeepFace.verify answers verified=true. -/
def envStrJsonTrue : Env (List Int) :=
  ⟨fun _ => .ok ⟨2, 2, "RGB"⟩,
   fun _ => .ok [],
   fun _ => .ok [],
   fun _ => .ok (Json.str "abc"),
   fun _ _ => .ok true⟩

/-- Same as envStrJsonTrue except DeepFace.verify answers
verified=false; the two environments differ only in the verify call. -/
def envStrJsonFalse : Env (List Int) :=
  ⟨fun _ => .ok ⟨2, 2, "RGB"⟩,
   fun _ => .ok [],
   fun _ => .ok [],
   fun _ => .ok (Json.str "abc"),
   fun _ _ => .ok false⟩

/-- A compare request whose stored_embedding field is the JSON document
for the bare string "abc" (valid JSON, not a numeric array). -/
def reqStrJson : Request := ⟨some [7], some "\"abc\""⟩

/-- Environment whose base64 decoder raises an error that echoes its
own input string, exposing exactly which string reached it. -/
def envEcho : Env (List Int) :=
  ⟨fun _ => .ok ⟨3, 3, "RGBA"⟩,
   fun s => .error ⟨true, s, s⟩,
   fun _ => .ok [],
   fun _ => .ok Json.null,
   fun _ _ => .ok false⟩

/-- Environment with a total base64 decoder and a PIL decoder that
records the byte count and yields a non-RGB source mode. -/
def envB64 : Env (List Int) :=
  ⟨fun b => .ok ⟨b.length, 1, "CMYK"⟩,
   fun s => .ok [s.length],
   fun _ => .ok [],
   fun _ => .ok Json.null,
   fun _ _ => .ok false⟩

/-- An exception whose message carries internal diagnostic detail. -/
def secretExn : PyExn :=
  ⟨false, "KeyError raised in representation.py line 93", "tb-full-stack"⟩

/-- Environment in which DeepFace.represent raises an internal error
carrying diagnostic detail in its message. -/
def envSecret : Env (List Int) :=
  ⟨fun _ => .ok ⟨1, 1, "L"⟩,
   fun _ => .ok [],
   fun _ => .error secretExn,
   fun _ => .ok Json.null,
   fun _ _ => .ok false⟩

/-- A generate request with a face file only. -/
def reqSecret : Request := ⟨some [5], none⟩

/-- Two generate requests with byte-for-byte identical face payloads
that differ in an unrelated form field. -/
def reqSameA : Request := ⟨some [9], none⟩

/-- Second request of the determinism pair; same face bytes as
reqSameA, different form content. -/
def reqSameB : Request := ⟨some [9], some "ignored"⟩

/-- Environment in which DeepFace.represent detects two faces and
returns one embedding object per face. -/
def envTwoFaces : Env (List Int) :=
  ⟨fun _ => .ok ⟨4, 4, "RGB"⟩,
   fun _ => .ok [],
   fun _ => .ok [⟨[1, 2]⟩, ⟨[3, 4]⟩],
   fun _ => .ok Json.null,
   fun _ _ => .ok true⟩

/-- A generate request for the two-face scenario. -/
def reqTwoFaces : Request := ⟨some [3], none⟩

/-! ### Theorems -/

/-- Helper: a string with a non-empty left part stays non-empty after
appending. -/
theorem length_append_ne_zero (p s : String) (hp : p.length ≠ 0) :
    (p ++ s).length ≠ 0 := by
  rw [String.length_append]
  omega

/-- C1 counterexample: with the image decoding fine and the embedder
raising the no-face ValueError (the 1 by 1 black pixel scenario), the
endpoint answers 500, not 400 as claimed; the body does carry an error
key and no embedding key. -/
theorem C1_counterexample :
    (generate_embedding envNoFace reqPixel).1.status = 500 ∧
    (generate_embedding envNoFace reqPixel).1.status ≠ 400 ∧
    (generate_embedding envNoFace reqPixel).1.error.isSome = true ∧
    (generate_embedding envNoFace reqPixel).1.embedding = none := by
  decide

/-- C1 (amended): for every request to /generate-embedding whose image
decodes but in which the embedder raises (in particular the no-face
ValueError under enforce_detection), the endpoint returns status 500
with a body containing an error key and no embedding key, because the
handler has only a catch-all `except Exception` branch. -/
theorem C1_theorem {Emb : Type} (env : Env Emb) (req : Request) (b : Bytes)
    (pil : PILImage) (e : PyExn)
    (hface : req.files_face = some b)
    (hopen : env.imageOpen b = .ok pil)
    (hrep : env.represent (convertRGB pil) = .error e) :
    generate_embedding env req =
      (⟨500, some ("An error occurred: " ++ e.msg), none, none⟩, [e.trace]) := by
  simp [generate_embedding, generate_embedding_body, decode_file_bytes,
    hface, hopen, hrep]

/-- C1 witness: the amended statement evaluated on the concrete
no-face scenario. -/
theorem C1_witness :
    generate_embedding envNoFace reqPixel =
      (⟨500, some ("An error occurred: " ++ noFaceExn.msg), none, none⟩,
       [noFaceExn.trace]) :=
  C1_theorem envNoFace reqPixel [0, 0, 0] ⟨1, 1, "L"⟩ noFaceExn rfl rfl rfl

/-- C2 counterexample: an undecodable (zero-byte) image payload makes
PIL raise UnidentifiedImageError, which is not a ValueError, so both
endpoints answer 500, not 400 as claimed. -/
theorem C2_counterexample :
    (generate_embedding envBadImage reqZeroByte).1.status = 500 ∧
    (generate_embedding envBadImage reqZeroByte).1.status ≠ 400 ∧
    (compare_faces envBadImage reqZeroByte).1.status = 500 ∧
    (compare_faces envBadImage reqZeroByte).1.status ≠ 400 := by
  decide

/-- C2 (amended): for every request to either endpoint whose image
payload makes PIL raise a non-ValueError exception (the malformed-image
case), the handler returns a 500 response with a non-empty error field;
no exception propagates past the handler boundary (both handlers are
total functions of the request). -/
theorem C2_theorem {Emb : Type} (env : Env Emb) (req : Request) (b : Bytes)
    (e : PyExn)
    (hface : req.files_face = some b)
    (hopen : env.imageOpen b = .error e)
    (hnv : e.isValueError = false) :
    (generate_embedding env req =
      (⟨500, some ("An error occurred: " ++ e.msg), none, none⟩, [e.trace]) ∧
      ("An error occurred: " ++ e.msg).length ≠ 0) ∧
    (∀ s, req.form_stored_embedding = some s → s ≠ "" →
      compare_faces env req =
        (⟨500, some ("An internal error occurred during comparison: " ++ e.msg),
          none, some false⟩, [e.trace]) ∧
      ("An internal error occurred during comparison: " ++ e.msg).length ≠ 0) := by
  refine ⟨⟨?_, length_append_ne_zero _ _ (by decide)⟩, ?_⟩
  · simp [generate_embedding, generate_embedding_body, decode_file_bytes,
      hface, hopen]
  · intro s hs hne
    refine ⟨?_, length_append_ne_zero _ _ (by decide)⟩
    simp [compare_faces, compare_faces_body, decode_file_bytes,
      hface, hs, hne, hopen, hnv]

/-- C2 witness: the amended statement evaluated on the concrete
zero-byte payload scenario at both endpoints. -/
theorem C2_witness :
    (generate_embedding envBadImage reqZeroByte).1.status = 500 ∧
    (compare_faces envBadImage reqZeroByte).1.status = 500 := by
  have h := C2_theorem envBadImage reqZeroByte [] badImageExn rfl rfl rfl
  rw [h.1.1, (h.2 "[1, 2]" rfl (by decide)).1]
  exact ⟨rfl, rfl⟩

/-- C3 counterexample: the 400 response for a missing face image
contains an error key but no is_match key at all, against the claim
that every non-200 body from /compare-faces carries is_match=false. -/
theorem C3_counterexample :
    (compare_faces envNoFace reqNoFaceFile).1.status = 400 ∧
    (compare_faces envNoFace reqNoFaceFile).1.error.isSome = true ∧
    (compare_faces envNoFace reqNoFaceFile).1.is_match = none := by
  decide

/-- C3 (amended): every non-200 response produced by the exception
paths of /compare-faces, that is whenever both the face file and a
non-empty stored_embedding field are present, carries both an error key
and is_match=false; only the two early validation 400 responses
(missing face, missing stored embedding) lack the is_match key. -/
theorem C3_theorem {Emb : Type} (env : Env Emb) (req : Request) (b : Bytes)
    (s : String)
    (hface : req.files_face = some b)
    (hs : req.form_stored_embedding = some s)
    (hne : s ≠ "")
    (hstatus : (compare_faces env req).1.status ≠ 200) :
    (compare_faces env req).1.error.isSome = true ∧
    (compare_faces env req).1.is_match = some false := by
  cases hopen : env.imageOpen b with
  | error e =>
    cases hve : e.isValueError <;>
      simp [compare_faces, compare_faces_body, decode_file_bytes,
        hface, hs, hne, hopen, hve]
  | ok pil =>
    cases hjson : env.jsonLoads s with
    | error e =>
      cases hve : e.isValueError <;>
        simp [compare_faces, compare_faces_body, decode_file_bytes,
          hface, hs, hne, hopen, hjson, hve]
    | ok j =>
      cases hv : env.verify (convertRGB pil) j with
      | error e =>
        cases hve : e.isValueError <;>
          simp [compare_faces, compare_faces_body, decode_file_bytes,
            hface, hs, hne, hopen, hjson, hv, hve]
      | ok verified =>
        exact absurd
          (by simp [compare_faces, compare_faces_body, decode_file_bytes,
                hface, hs, hne, hopen, hjson, hv])
          hstatus

/-- C3 witness: the amended statement evaluated on a concrete request
whose stored embedding fails to parse (a 400 response). -/
theorem C3_witness :
    (compare_faces envNoFace reqJsonArr).1.error.isSome = true ∧
    (compare_faces envNoFace reqJsonArr).1.is_match = some false :=
  C3_theorem envNoFace reqJsonArr [2] "[0.1]" rfl rfl (by decide) (by decide)

/-- C4: for every request to /compare-faces with both inputs present
and a decodable image, if json.loads raises (JSONDecodeError is a
subclass of ValueError) or DeepFace.verify raises a ValueError (as it
does when a supplied embedding has the wrong dimensionality for the
model), the endpoint returns status 400 and never 500. -/
theorem C4_theorem {Emb : Type} (env : Env Emb) (req : Request) (b : Bytes)
    (s : String) (pil : PILImage)
    (hface : req.files_face = some b)
    (hs : req.form_stored_embedding = some s)
    (hne : s ≠ "")
    (hopen : env.imageOpen b = .ok pil)
    (hbad : (∃ e, env.jsonLoads s = .error e ∧ e.isValueError = true) ∨
            (∃ j e, env.jsonLoads s = .ok j ∧
              env.verify (convertRGB pil) j = .error e ∧ e.isValueError = true)) :
    (compare_faces env req).1.status = 400 ∧
    (compare_faces env req).1.status ≠ 500 := by
  rcases hbad with ⟨e, hj, hve⟩ | ⟨j, e, hj, hv, hve⟩
  · simp [compare_faces, compare_faces_body, decode_file_bytes,
      hface, hs, hne, hopen, hj, hve]
  · simp [compare_faces, compare_faces_body, decode_file_bytes,
      hface, hs, hne, hopen, hj, hv, hve]

/-- C4 witness: the statement evaluated on a concrete request whose
stored_embedding is not valid JSON. -/
theorem C4_witness :
    (compare_faces envNoFace reqBadJson).1.status = 400 ∧
    (compare_faces envNoFace reqBadJson).1.status ≠ 500 :=
  C4_theorem envNoFace reqBadJson [1] "not-json" ⟨1, 1, "L"⟩ rfl rfl (by decide)
    rfl (Or.inl ⟨badJsonExn, rfl, rfl⟩)

/-- C5 counterexample: a stored_embedding that parses to the JSON
string "abc" (not a numeric sequence) does reach the comparison step:
two environments that differ only in the verify call produce different
responses on that payload, so verify was invoked with it. -/
theorem C5_counterexample :
    envStrJsonTrue.jsonLoads "\"abc\"" = .ok (Json.str "abc") ∧
    (compare_faces envStrJsonTrue reqStrJson).1.is_match = some true ∧
    (compare_faces envStrJsonFalse reqStrJson).1.is_match = some false ∧
    compare_faces envStrJsonTrue reqStrJson ≠
      compare_faces envStrJsonFalse reqStrJson :=
  ⟨rfl, rfl, rfl, by decide⟩

/-- C5 (amended): the handler validates only that the stored embedding
is parseable JSON; whatever value json.loads returns, numeric sequence
or not, is passed directly to the DeepFace.verify call, whose outcome
alone shapes the response. -/
theorem C5_theorem {Emb : Type} (env : Env Emb) (req : Request) (b : Bytes)
    (s : String) (pil : PILImage) (j : Json)
    (hface : req.files_face = some b)
    (hs : req.form_stored_embedding = some s)
    (hne : s ≠ "")
    (hopen : env.imageOpen b = .ok pil)
    (hjson : env.jsonLoads s = .ok j) :
    compare_faces env req =
      (match env.verify (convertRGB pil) j with
       | .ok is_match =>
         (⟨200, none, none, some is_match⟩,
          ["Comparison Result: " ++ toString is_match])
       | .error e =>
         if e.isValueError then
           (⟨400, some ("Could not process image: " ++ e.msg), none,
             some false⟩, [])
         else
           (⟨500, some ("An internal error occurred during comparison: " ++ e.msg),
             none, some false⟩, [e.trace])) := by
  cases hv : env.verify (convertRGB pil) j <;>
    simp [compare_faces, compare_faces_body, decode_file_bytes,
      hface, hs, hne, hopen, hjson, hv]

/-- C5 witness: the amended statement evaluated on the concrete
JSON-string payload. -/
theorem C5_witness :
    compare_faces envStrJsonTrue reqStrJson =
      (⟨200, none, none, some true⟩, ["Comparison Result: " ++ toString true]) := by
  have h := C5_theorem envStrJsonTrue reqStrJson [7] "\"abc\"" ⟨2, 2, "RGB"⟩
    (Json.str "abc") rfl rfl (by decide) rfl rfl
  rw [h]
  rfl

/-- C6 counterexample: on a string with two commas after the marker the
decoder base64-decodes the segment between the first and second commas
("AAAA"), not everything after the first comma ("AAAA,BBBB") as the
claim words it. -/
theorem C6_counterexample :
    b64_to_numpy envEcho "data:image/png;base64,AAAA,BBBB" =
      .error ⟨true, "AAAA", "AAAA"⟩ ∧
    strip_spec "data:image/png;base64,AAAA,BBBB" = "AAAA,BBBB" ∧
    ("AAAA" : String) ≠ "AAAA,BBBB" :=
  ⟨rfl, rfl, by decide⟩

/-- C6 (amended): the decoder accepts raw image bytes (normalizing to
RGB), accepts a bare base64 string without the data-URI marker
unchanged, and for a string containing "data:image" base64-decodes the
segment between the first and second commas, which equals everything
after the first comma whenever the remainder holds no further comma;
every accepted input is normalized to RGB channel order. -/
theorem C6_theorem {Emb : Type} (env : Env Emb) :
    (∀ (b : Bytes) (pil : PILImage), env.imageOpen b = .ok pil →
      decode_file_bytes env b = .ok (convertRGB pil) ∧
      (convertRGB pil).mode = "RGB") ∧
    (∀ (s : String) (bs : Bytes), py_contains s "data:image" = false →
      env.b64decode s = .ok bs →
      b64_to_numpy env s = decode_file_bytes env bs) ∧
    (∀ (s h t : String) (rest : List String) (bs : Bytes),
      py_contains s "data:image" = true →
      py_split_comma s = h :: t :: rest →
      env.b64decode t = .ok bs →
      b64_to_numpy env s = decode_file_bytes env bs) := by
  refine ⟨?_, ?_, ?_⟩
  · intro b pil hopen
    exact ⟨by simp [decode_file_bytes, hopen], rfl⟩
  · intro s bs hpc hdec
    simp [b64_to_numpy, hpc, hdec]
  · intro s h t rest bs hpc hsplit hdec
    simp [b64_to_numpy, hpc, hsplit, hdec]

/-- C6 witness: the amended statement evaluated on a data-URI string
and on a bare base64 string; both decode and come out in RGB mode. -/
theorem C6_witness :
    b64_to_numpy envB64 "data:image/png;base64,QUJD" = .ok ⟨1, 1, "RGB"⟩ ∧
    b64_to_numpy envB64 "QUJD" = .ok ⟨1, 1, "RGB"⟩ := by
  have h := C6_theorem envB64
  constructor
  · rw [h.2.2 "data:image/png;base64,QUJD" "data:image/png;base64" "QUJD" [] [4]
      (by decide) (by decide) rfl]
    rfl
  · rw [h.2.1 "QUJD" [4] (by decide) rfl]
    rfl

/-- C7 counterexample: when the one-time model warm-up raises, the
module still finishes initialization and the process serves traffic,
against the claim that no endpoint is reachable after a failed
warm-up. -/
theorem C7_counterexample :
    serves (Except.error
      ⟨false, "No internet connection to download weights", "tb"⟩) = true := by
  rfl

/-- C7 (amended): the warm-up failure is caught by the surrounding
except clause and only logged; whatever DeepFace.build_model does, the
module finishes initialization and the process proceeds to serve, and
on failure the log records the startup error message. -/
theorem C7_theorem (build_model : Py Unit) :
    serves build_model = true ∧
    (∀ e : PyExn, build_model = .error e →
      module_init build_model =
        .ok ["Loading face recognition model...",
             "Error loading model on startup: " ++ e.msg]) := by
  constructor
  · cases build_model <;> rfl
  · rintro e rfl
    rfl

/-- C7 witness: the amended statement evaluated on a concrete failed
warm-up. -/
theorem C7_witness :
    serves (Except.error ⟨false, "boom", "tb"⟩) = true ∧
    module_init (Except.error ⟨false, "boom", "tb"⟩) =
      .ok ["Loading face recognition model...",
           "Error loading model on startup: boom"] := by
  have h := C7_theorem (Except.error ⟨false, "boom", "tb"⟩)
  exact ⟨h.1, h.2 ⟨false, "boom", "tb"⟩ rfl⟩

/-- C8 counterexample: the caller-visible error field of
/generate-embedding embeds the raised exception message (str(e)),
including its internal diagnostic detail, against the claim that no
internal exception detail reaches the caller. -/
theorem C8_counterexample :
    (generate_embedding envSecret reqSecret).1.error =
      some ("An error occurred: " ++ secretExn.msg) ∧
    py_contains ("An error occurred: " ++ secretExn.msg) secretExn.msg = true :=
  ⟨rfl, by decide⟩

/-- C8 (amended): on the exception paths of /compare-faces the
caller-visible error message embeds the exception message str(e); only
the stack traceback stays server-side, logged on the 500 path and not
logged at all on the ValueError 400 path. -/
theorem C8_theorem {Emb : Type} (env : Env Emb) (req : Request) (b : Bytes)
    (s : String) (e : PyExn)
    (hface : req.files_face = some b)
    (hs : req.form_stored_embedding = some s)
    (hne : s ≠ "")
    (hopen : env.imageOpen b = .error e) :
    (e.isValueError = true →
      compare_faces env req =
        (⟨400, some ("Could not process image: " ++ e.msg), none,
          some false⟩, [])) ∧
    (e.isValueError = false →
      compare_faces env req =
        (⟨500, some ("An internal error occurred during comparison: " ++ e.msg),
          none, some false⟩, [e.trace])) := by
  constructor <;> intro hve <;>
    simp [compare_faces, compare_faces_body, decode_file_bytes,
      hface, hs, hne, hopen, hve]

/-- C8 witness: the amended statement evaluated on the concrete
malformed-image scenario; the PIL message appears in the response and
the traceback appears only in the log. -/
theorem C8_witness :
    compare_faces envBadImage reqZeroByte =
      (⟨500, some ("An internal error occurred during comparison: " ++
          badImageExn.msg), none, some false⟩, [badImageExn.trace]) := by
  have h := C8_theorem envBadImage reqZeroByte [] "[1, 2]" badImageExn
    rfl rfl (by decide) rfl
  exact h.2 rfl

/-- C9: the /generate-embedding handler reads nothing of the request
except the bytes of the uploaded face file, so under a fixed
environment two requests with byte-for-byte identical payloads receive
identical responses, embedding vector included. -/
theorem C9_theorem {Emb : Type} (env : Env Emb) (r1 r2 : Request)
    (h : r1.files_face = r2.files_face) :
    generate_embedding env r1 = generate_embedding env r2 := by
  unfold generate_embedding generate_embedding_body
  rw [h]

/-- C9 witness: the statement evaluated on two concrete requests with
the same payload bytes and different unrelated form content. -/
theorem C9_witness :
    generate_embedding envNoFace reqSameA = generate_embedding envNoFace reqSameB :=
  C9_theorem envNoFace reqSameA reqSameB rfl

/-- C10: when the embedder returns a non-empty list of per-face
embedding objects, the 200 response carries exactly the embedding of
the first element; the remaining detected faces never appear in the
response. -/
theorem C10_theorem {Emb : Type} (env : Env Emb) (req : Request) (b : Bytes)
    (pil : PILImage) (o : FaceObj Emb) (rest : List (FaceObj Emb))
    (hface : req.files_face = some b)
    (hopen : env.imageOpen b = .ok pil)
    (hrep : env.represent (convertRGB pil) = .ok (o :: rest)) :
    generate_embedding env req = (⟨200, none, some o.embedding, none⟩, []) := by
  simp [generate_embedding, generate_embedding_body, decode_file_bytes,
    hface, hopen, hrep]

/-- C10 witness: the statement evaluated on the concrete two-face
scenario; only the first embedding [1, 2] is returned and [3, 4] is
discarded. -/
theorem C10_witness :
    generate_embedding envTwoFaces reqTwoFaces =
      (⟨200, none, some [1, 2], none⟩, []) :=
  C10_theorem envTwoFaces reqTwoFaces [3] ⟨4, 4, "RGB"⟩ ⟨[1, 2]⟩ [⟨[3, 4]⟩]
    rfl rfl rfl

end IntelliFace
